import Mathlib

/-!
GRVK translation core: Mantle entry points over Vulkan.

A shallow embedding of `src/mantle/mantle.c` and `src/mantle/mantle_object_man.c`.

Conventions of the embedding.

* Vulkan and Mantle handles are natural numbers, `0` being `NULL` / `VK_NULL_HANDLE`.
* A pointer to a structure that the code dereferences is an `Option`: `none` is `NULL`.
* An output location is reported as an `Option`: `none` when the function stores nothing
  through it, `some v` when it stores `v`.
* Every call into Vulkan is appended to a trace of `VkCall` values; what Vulkan answers is an
  explicit input of the function (a reply).
* `malloc` and `free` act on an explicit `Heap`; which calls of malloc return NULL is an
  input. No result of malloc is checked in the source.
* A function whose C code can run into undefined behaviour (a store through NULL, a signed
  loop counter passing INT32_MAX) returns an `Option`, `none` standing for that case.
* size_t is taken to be 64 bits wide, so that no product passed to malloc wraps.
* Constants of `mantle/mantle.h`, which is not among the two source files, are fields of
  `MantleHeader`, a parameter of every function that uses one.
-/

namespace Grvk

/-! ## Types shared by both files -/

abbrev VkResult := Int
abbrev VkInstance := Nat
abbrev VkPhysicalDevice := Nat
abbrev VkDevice := Nat
abbrev VkQueue := Nat
abbrev VkCommandPool := Nat
abbrev VkCommandBuffer := Nat
abbrev VkImage := Nat
abbrev VkDeviceMemory := Nat
abbrev GR_PHYSICAL_GPU := Nat
abbrev GR_DEVICE := Nat
abbrev GR_QUEUE := Nat
abbrev GR_CMD_BUFFER := Nat
abbrev GR_ENUM := Int

/-- Vulkan status of a call that succeeded (vulkan.h). -/
def VK_SUCCESS : VkResult := 0

/-- Queue capability bit of vulkan.h: graphics. -/
def VK_QUEUE_GRAPHICS_BIT : Nat := 1

/-- Queue capability bit of vulkan.h: compute. -/
def VK_QUEUE_COMPUTE_BIT : Nat := 2

/-- Version constant of vulkan.h, `VK_MAKE_VERSION(1, 1, 0)`. -/
def VK_API_VERSION_1_1 : Nat := 4198400

/-- Mantle result codes named in the two source files; `GR_OTHER` stands for every other
code of the GR_RESULT enumeration. -/
inductive GR_RESULT
  | GR_SUCCESS
  | GR_ERROR_INVALID_HANDLE
  | GR_ERROR_INVALID_POINTER
  | GR_ERROR_INVALID_VALUE
  | GR_ERROR_INVALID_MEMORY_SIZE
  | GR_ERROR_INITIALIZATION_FAILED
  | GR_ERROR_OUT_OF_MEMORY
  | GR_ERROR_UNAVAILABLE
  | GR_OTHER (code : Int)
  deriving DecidableEq

open GR_RESULT

/-- Constants and sizes that the source takes from `mantle/mantle.h`. -/
structure MantleHeader where
  GR_QUEUE_UNIVERSAL : GR_ENUM
  GR_QUEUE_COMPUTE : GR_ENUM
  GR_INFO_TYPE_MEMORY_REQUIREMENTS : GR_ENUM
  GR_MAX_PHYSICAL_GPUS : Nat
  sizeofMemoryRequirements : Nat
  deriving DecidableEq

/-- A header instance for the places where the embedding is evaluated at a concrete input.
The numbers follow the public Mantle headers; every theorem with a header parameter holds for
all headers. -/
def mantle10 : MantleHeader :=
  { GR_QUEUE_UNIVERSAL := 0x1000
    GR_QUEUE_COMPUTE := 0x1001
    GR_INFO_TYPE_MEMORY_REQUIREMENTS := 0x6800
    GR_MAX_PHYSICAL_GPUS := 4
    sizeofMemoryRequirements := 56 }

/-- The members of VkDeviceQueueCreateInfo that vary: the family index, the queue count, the
pointer to the priority array (a heap address) and the contents of that array. The members
sType, pNext and flags are constants in the source. -/
structure VkDeviceQueueCreateInfo where
  queueFamilyIndex : Nat
  queueCount : Nat
  pQueuePriorities : Nat
  queuePriorities : List ℚ
  deriving DecidableEq

/-- One call into the Vulkan API, with the arguments the code passes. -/
inductive VkCall
  | vkDestroyInstance (inst : VkInstance)
  | vkCreateInstance (pApplicationName : String) (applicationVersion : Nat)
      (pEngineName : String) (engineVersion : Nat) (apiVersion : Nat)
  | vkEnumeratePhysicalDevices (inst : VkInstance) (count : Nat) (fill : Bool)
  | vkGetPhysicalDeviceQueueFamilyProperties (gpu : VkPhysicalDevice) (fill : Bool)
  | vkCreateDevice (gpu : VkPhysicalDevice)
      (queueCreateInfos : List VkDeviceQueueCreateInfo)
  | vkGetDeviceQueue (device : VkDevice) (queueFamilyIndex : Nat) (queueIndex : Nat)
  | vkCreateCommandPool (device : VkDevice) (queueFamilyIndex : Nat)
  | vkAllocateCommandBuffers (device : VkDevice) (commandPool : VkCommandPool)
      (commandBufferCount : Nat)
  | vkGetImageMemoryRequirements (device : VkDevice) (image : VkImage)
  | vkBindImageMemory (device : VkDevice) (image : VkImage) (memory : VkDeviceMemory)
      (offset : Nat)
  deriving DecidableEq

/-! ## mantle_object_man.c -/

/-- Type tag of the base-object header. The three tags the file tests are named; `other`
stands for every other tag of GrObjectType (declared in mantle_internal.h). -/
inductive GrObjectType
  | GR_OBJ_TYPE_IMAGE
  | GR_OBJ_TYPE_DESCRIPTOR_SET
  | GR_OBJ_TYPE_PIPELINE
  | other (tag : Nat)
  deriving DecidableEq

open GrObjectType

/-- The GrDevice the header of an object points back to. -/
structure GrDevice where
  device : VkDevice
  deriving DecidableEq

/-- An object as the two functions see it: the header read by GET_OBJ_TYPE and
GET_OBJ_DEVICE, and the `image` member read after the cast to GrImage. -/
structure GrObject where
  grObjType : GrObjectType
  grDevice : GrDevice
  image : VkImage
  deriving DecidableEq

/-- The GrGpuMemory behind a GR_GPU_MEMORY handle. -/
structure GrGpuMemory where
  deviceMemory : VkDeviceMemory
  deriving DecidableEq

/-- The members of GR_MEMORY_REQUIREMENTS that the source names. -/
structure GR_MEMORY_REQUIREMENTS where
  size : Nat
  alignment : Nat
  heapCount : Nat
  deriving DecidableEq

/-- What vkGetImageMemoryRequirements stores in its output structure. -/
structure VkMemoryRequirements where
  size : Nat
  alignment : Nat
  memoryTypeBits : Nat
  deriving DecidableEq

/-- Modelled from the spec: getGrResult, the Result Mapper, declared in mantle_internal.h
and defined outside the two source files. The spec says that it converts target-API status
codes into legacy result codes, that a bind which succeeds yields Success and that an
underlying failure is mapped to a legacy result other than Success. The error code given to
a failing status is not stated; OutOfMemory, the code the spec describes as used for
target-API resource failures, is taken here, and no theorem below depends on which error code
it is. -/
def getGrResult (vkRes : VkResult) : GR_RESULT :=
  if vkRes = VK_SUCCESS then GR_SUCCESS else GR_ERROR_OUT_OF_MEMORY

/-- Outcome of grGetObjectInfo: the returned code, the value stored through pDataSize, the
value stored through pData, and the calls made on the device. -/
structure GetObjectInfoOut where
  result : GR_RESULT
  dataSize : Option Nat
  data : Option GR_MEMORY_REQUIREMENTS
  calls : List VkCall
  deriving DecidableEq

/-- Embedding of grGetObjectInfo (mantle_object_man.c, lines 5-60).
`memReqs` is what vkGetImageMemoryRequirements answers, `getGrMemoryRequirements` the
conversion helper of mantle_internal.h; `pDataSize` is `none` for a null pointer and
`some n` for a location that holds `n`; `pData` is `none` for a null buffer and `some a`
for a buffer at address `a`. -/
def grGetObjectInfo (H : MantleHeader) (memReqs : VkMemoryRequirements)
    (getGrMemoryRequirements : VkMemoryRequirements → GR_MEMORY_REQUIREMENTS)
    (object : Option GrObject) (infoType : GR_ENUM) (pDataSize : Option Nat)
    (pData : Option Nat) : GetObjectInfoOut :=
  match object with
  | none => ⟨GR_ERROR_INVALID_HANDLE, none, none, []⟩
  | some grBaseObject =>
    match pDataSize with
    | none => ⟨GR_ERROR_INVALID_POINTER, none, none, []⟩
    | some dataSize =>
      let objType := grBaseObject.grObjType
      if infoType = H.GR_INFO_TYPE_MEMORY_REQUIREMENTS then
        match pData with
        | none => ⟨GR_SUCCESS, some H.sizeofMemoryRequirements, none, []⟩
        | some _ =>
          if dataSize ≠ H.sizeofMemoryRequirements then
            ⟨GR_ERROR_INVALID_MEMORY_SIZE, none, none, []⟩
          else if objType = GR_OBJ_TYPE_IMAGE then
            ⟨GR_SUCCESS, none, some (getGrMemoryRequirements memReqs),
              [VkCall.vkGetImageMemoryRequirements grBaseObject.grDevice.device
                grBaseObject.image]⟩
          else if objType = GR_OBJ_TYPE_DESCRIPTOR_SET ∨ objType = GR_OBJ_TYPE_PIPELINE then
            ⟨GR_SUCCESS, none, some { size := 4, alignment := 4, heapCount := 0 }, []⟩
          else
            ⟨GR_ERROR_INVALID_VALUE, none, none, []⟩
      else
        ⟨GR_ERROR_INVALID_VALUE, none, none, []⟩

/-- Outcome of grBindObjectMemory: the returned code and the calls made on the device. -/
structure BindObjectMemoryOut where
  result : GR_RESULT
  calls : List VkCall
  deriving DecidableEq

/-- Embedding of grBindObjectMemory (mantle_object_man.c, lines 62-96). `bindReply` is the
status vkBindImageMemory answers. The function result is `none` where the C code
dereferences a null memory handle (image branch with `mem = NULL`). -/
def grBindObjectMemory (bindReply : VkResult) (object : Option GrObject)
    (mem : Option GrGpuMemory) (offset : Nat) : Option BindObjectMemoryOut :=
  let vkRes : VkResult := VK_SUCCESS
  match object with
  | none => some ⟨GR_ERROR_INVALID_HANDLE, []⟩
  | some grObject =>
    let objType := grObject.grObjType
    if objType = GR_OBJ_TYPE_IMAGE then
      match mem with
      | none => none
      | some grGpuMemory =>
        let vkRes := bindReply
        some ⟨getGrResult vkRes,
          [VkCall.vkBindImageMemory grObject.grDevice.device grObject.image
            grGpuMemory.deviceMemory offset]⟩
    else if objType = GR_OBJ_TYPE_DESCRIPTOR_SET ∨ objType = GR_OBJ_TYPE_PIPELINE then
      some ⟨getGrResult vkRes, []⟩
    else
      some ⟨GR_ERROR_UNAVAILABLE, []⟩

/-! ## mantle.c -/

/-- A function pointer held in mAllocFun: null, the default grvkAlloc, or the pointer a
caller supplied. -/
inductive AllocFun
  | null
  | grvkAlloc
  | custom (pfn : Nat)
  deriving DecidableEq

/-- A function pointer held in mFreeFun: null, the default grvkFree, or the pointer a
caller supplied. -/
inductive FreeFun
  | null
  | grvkFree
  | custom (pfn : Nat)
  deriving DecidableEq

/-- The two members of GR_ALLOC_CALLBACKS that the source reads. -/
structure GR_ALLOC_CALLBACKS where
  pfnAlloc : Nat
  pfnFree : Nat
  deriving DecidableEq

/-- The members of GR_APPLICATION_INFO that the source reads. -/
structure GR_APPLICATION_INFO where
  pAppName : String
  appVersion : Nat
  pEngineName : String
  engineVersion : Nat
  apiVersion : Nat
  deriving DecidableEq

/-- The three file-scope variables of mantle.c. -/
structure Globals where
  mAllocFun : AllocFun
  mFreeFun : FreeFun
  mVkInstance : VkInstance
  deriving DecidableEq

/-- The file-scope variables as the C initialisers leave them: all three NULL. -/
def Globals.start : Globals := ⟨AllocFun.null, FreeFun.null, 0⟩

/-- Embedding of getVkQueueFamilyIndex (mantle.c, lines 26-31): the difference of two
GR_ENUM values converted to uint32_t. -/
def getVkQueueFamilyIndex (H : MantleHeader) (queueType : GR_ENUM) : Nat :=
  ((queueType - H.GR_QUEUE_UNIVERSAL) % 2 ^ 32).toNat

/-- What vkCreateInstance answers: the status, and the handle it stores through pInstance
(`none` when it leaves the location untouched). -/
structure VkCreateInstanceReply where
  result : VkResult
  pInstance : Option VkInstance
  deriving DecidableEq

/-- The Vulkan side of one grInitAndEnumerateGpus call: the answer of vkCreateInstance and the
physical devices that the instance exposes. -/
structure InitEnv where
  createInstance : VkCreateInstanceReply
  physicalDevices : List VkPhysicalDevice
  deriving DecidableEq

/-- Contract of vkEnumeratePhysicalDevices (size-then-fill): with a null array it stores the
number of devices in the count; with an array it stores at most `count` devices, in
enumeration order, and the number stored. Returns the count and the array contents. -/
def vkEnumeratePhysicalDevices (available : List VkPhysicalDevice) (count : Nat)
    (fill : Bool) : Nat × List VkPhysicalDevice :=
  if fill then (min count available.length, available.take count)
  else (available.length, [])

/-- Outcome of grInitAndEnumerateGpus: the returned code, the value stored through pGpuCount,
the values stored in gpus[0], gpus[1], ... in this order, the Vulkan calls in the order they
are made, and the file-scope variables afterwards. -/
structure InitOut where
  result : GR_RESULT
  gpuCount : Option Nat
  gpus : List GR_PHYSICAL_GPU
  calls : List VkCall
  globals : Globals
  deriving DecidableEq

/-- Embedding of grInitAndEnumerateGpus (mantle.c, lines 35-94); the printf is left out. -/
def grInitAndEnumerateGpus (H : MantleHeader) (env : InitEnv) (g : Globals)
    (pAppInfo : GR_APPLICATION_INFO) (pAllocCb : Option GR_ALLOC_CALLBACKS) : InitOut :=
  let g1 : Globals :=
    match pAllocCb with
    | none => { g with mAllocFun := AllocFun.grvkAlloc, mFreeFun := FreeFun.grvkFree }
    | some cb =>
      { g with mAllocFun := AllocFun.custom cb.pfnAlloc, mFreeFun := FreeFun.custom cb.pfnFree }
  let destroyCalls : List VkCall :=
    if g1.mVkInstance ≠ 0 then [VkCall.vkDestroyInstance g1.mVkInstance] else []
  let createCall : VkCall :=
    VkCall.vkCreateInstance pAppInfo.pAppName pAppInfo.appVersion pAppInfo.pEngineName
      pAppInfo.engineVersion VK_API_VERSION_1_1
  let g2 : Globals :=
    match env.createInstance.pInstance with
    | some h => { g1 with mVkInstance := h }
    | none => g1
  if env.createInstance.result ≠ VK_SUCCESS then
    ⟨GR_ERROR_INITIALIZATION_FAILED, none, [], destroyCalls ++ [createCall], g2⟩
  else
    let physicalDeviceCount := (vkEnumeratePhysicalDevices env.physicalDevices 0 false).1
    let physicalDeviceCount :=
      if physicalDeviceCount > H.GR_MAX_PHYSICAL_GPUS then H.GR_MAX_PHYSICAL_GPUS
      else physicalDeviceCount
    let filled := vkEnumeratePhysicalDevices env.physicalDevices physicalDeviceCount true
    let gpuCount := filled.1
    let physicalDevices := filled.2
    let gpus := (List.range gpuCount).map (fun i => physicalDevices.getD i 0)
    ⟨GR_SUCCESS, some gpuCount, gpus,
      destroyCalls ++ [createCall,
        VkCall.vkEnumeratePhysicalDevices g2.mVkInstance 0 false,
        VkCall.vkEnumeratePhysicalDevices g2.mVkInstance physicalDeviceCount true], g2⟩

/-- A sequence of grInitAndEnumerateGpus calls with the same header, starting from the
globals `g`: the outcome of every call, in order. -/
def initSequence (H : MantleHeader) (g : Globals) :
    List (InitEnv × GR_APPLICATION_INFO × Option GR_ALLOC_CALLBACKS) → List InitOut
  | [] => []
  | (env, app, cb) :: rest =>
    let out := grInitAndEnumerateGpus H env g app cb
    out :: initSequence H out.globals rest

/-- A block handed out by malloc: its address and the number of elements asked for. -/
structure Block where
  addr : Nat
  elems : Nat
  deriving DecidableEq

/-- The C heap: the highest address handed out so far and the blocks that are allocated and
not freed. Address 0 is NULL. -/
structure Heap where
  next : Nat
  live : List Block
  deriving DecidableEq

/-- Largest value of the C type int, the type of every loop counter of grCreateDevice. -/
def INT32_MAX : Nat := 2147483647

/-- One call of malloc. When `fails` it returns NULL and leaves the heap as it is; otherwise
it returns a fresh non-null address and the heap holds the new block. -/
def malloc (h : Heap) (elems : Nat) (fails : Bool) : Nat × Heap :=
  if fails then (0, h)
  else (h.next + 1, { next := h.next + 1, live := h.live ++ [⟨h.next + 1, elems⟩] })

/-- One call of free: nothing for NULL, otherwise the block at address `p` is released. -/
def free (h : Heap) (p : Nat) : Heap :=
  if p = 0 then h else { h with live := h.live.filter (fun b => b.addr ≠ p) }

/-- The members of VkQueueFamilyProperties that the source reads. -/
structure VkQueueFamilyProperties where
  queueFlags : Nat
  queueCount : Nat
  deriving DecidableEq

/-- The four locals that the capability scan of grCreateDevice fills (lines 103-106);
`4294967295` is `-1` stored in a uint32_t. -/
structure QueueScan where
  universalQueueIndex : Nat
  universalQueueCount : Nat
  computeQueueIndex : Nat
  computeQueueCount : Nat
  deriving DecidableEq

/-- The locals before the scan. -/
def QueueScan.start : QueueScan := ⟨4294967295, 0, 4294967295, 0⟩

/-- Test of line 119: the flags hold both the graphics and the compute bit. -/
def isUniversalFamily (p : VkQueueFamilyProperties) : Prop :=
  p.queueFlags &&& (VK_QUEUE_GRAPHICS_BIT ||| VK_QUEUE_COMPUTE_BIT) =
    (VK_QUEUE_GRAPHICS_BIT ||| VK_QUEUE_COMPUTE_BIT)

instance (p : VkQueueFamilyProperties) : Decidable (isUniversalFamily p) := by
  unfold isUniversalFamily; infer_instance

/-- Test of line 123: the flags hold the compute bit. -/
def hasComputeBit (p : VkQueueFamilyProperties) : Prop :=
  p.queueFlags &&& VK_QUEUE_COMPUTE_BIT = VK_QUEUE_COMPUTE_BIT

instance (p : VkQueueFamilyProperties) : Decidable (hasComputeBit p) := by
  unfold hasComputeBit; infer_instance

/-- Body of the scan loop (lines 117-127) for the family at index `i`. -/
def scanFamily (s : QueueScan) (i : Nat) (p : VkQueueFamilyProperties) : QueueScan :=
  if isUniversalFamily p then
    { s with universalQueueIndex := i, universalQueueCount := p.queueCount }
  else if hasComputeBit p then
    { s with computeQueueIndex := i, computeQueueCount := p.queueCount }
  else s

/-- The scan loop (line 116) from index `i` on. -/
def scanFrom (i : Nat) (s : QueueScan) : List VkQueueFamilyProperties → QueueScan
  | [] => s
  | p :: rest => scanFrom (i + 1) (scanFamily s i p) rest

/-- The capability scan of grCreateDevice over the reported queue families. -/
def scanQueueFamilies (fams : List VkQueueFamilyProperties) : QueueScan :=
  scanFrom 0 QueueScan.start fams

/-- One requested queue allocation. -/
structure GR_DEVICE_QUEUE_CREATE_INFO where
  queueType : GR_ENUM
  queueCount : Nat
  deriving DecidableEq

/-- State carried through the request loop (lines 132-158): the pending result, the entries
of queueCreateInfos written so far, and the heap. -/
structure RequestLoop where
  res : GR_RESULT
  infos : List VkDeviceQueueCreateInfo
  heap : Heap
  deriving DecidableEq

/-- Test of lines 141-144: the requested count differs from the scanned count of the
universal family (universal request) or of the compute family (compute request). -/
def queueCountMismatch (H : MantleHeader) (scan : QueueScan)
    (requestedQueue : GR_DEVICE_QUEUE_CREATE_INFO) : Prop :=
  (requestedQueue.queueType = H.GR_QUEUE_UNIVERSAL ∧
      requestedQueue.queueCount ≠ scan.universalQueueCount) ∨
    (requestedQueue.queueType = H.GR_QUEUE_COMPUTE ∧
      requestedQueue.queueCount ≠ scan.computeQueueCount)

instance (H : MantleHeader) (scan : QueueScan) (r : GR_DEVICE_QUEUE_CREATE_INFO) :
    Decidable (queueCountMismatch H scan r) := by
  unfold queueCountMismatch; infer_instance

/-- The priority fill of lines 137-139 into the array at address `queuePriorities`: every
entry is 1.0f. The counter j is an int compared with the uint32 count, so the loop is
undefined when the count exceeds INT32_MAX (j++ overflows); it is undefined as well when
the array is NULL and there is an entry to store. -/
def fillPriorities (queuePriorities : Nat) (queueCount : Nat) : Option (List ℚ) :=
  if queueCount > INT32_MAX then none
  else if queuePriorities = 0 ∧ 0 < queueCount then none
  else some (List.replicate queueCount 1)

/-- Body of the request loop (lines 133-157) for one requested queue. `failedAllocs` lists
the calls of malloc that return NULL (see CreateDeviceEnv), the call made here having the
number 2 + i for the loop index i; `queueCreateInfos` is the address of the create-info
array, and the store of line 149 through it is undefined when it is NULL. -/
def requestStep (H : MantleHeader) (scan : QueueScan) (failedAllocs : List Nat)
    (queueCreateInfos : Nat) (st : RequestLoop)
    (requestedQueue : GR_DEVICE_QUEUE_CREATE_INFO) : Option RequestLoop :=
  let alloc := malloc st.heap requestedQueue.queueCount
    (decide (2 + st.infos.length ∈ failedAllocs))
  match fillPriorities alloc.1 requestedQueue.queueCount with
  | none => none
  | some queuePriorities =>
    let res :=
      if queueCountMismatch H scan requestedQueue then GR_ERROR_INVALID_VALUE else st.res
    if queueCreateInfos = 0 then none
    else
      some
        { res := res
          infos := st.infos ++
            [{ queueFamilyIndex :=
                 if requestedQueue.queueType = H.GR_QUEUE_UNIVERSAL then
                   scan.universalQueueIndex
                 else scan.computeQueueIndex
               queueCount := requestedQueue.queueCount
               pQueuePriorities := alloc.1
               queuePriorities := queuePriorities }]
          heap := alloc.2 }

/-- The request loop (line 132) over the requests still to be handled. -/
def requestLoop (H : MantleHeader) (scan : QueueScan) (failedAllocs : List Nat)
    (queueCreateInfos : Nat) : RequestLoop → List GR_DEVICE_QUEUE_CREATE_INFO →
    Option RequestLoop
  | st, [] => some st
  | st, requestedQueue :: rest =>
    match requestStep H scan failedAllocs queueCreateInfos st requestedQueue with
    | none => none
    | some st1 => requestLoop H scan failedAllocs queueCreateInfos st1 rest

/-- The code after the label `bail` (lines 185-189): every priority array is freed, then
the create-info array. -/
def bail (heap : Heap) (queueCreateInfos : Nat) (infos : List VkDeviceQueueCreateInfo) :
    Heap :=
  free (infos.foldl (fun h ci => free h ci.pQueuePriorities) heap) queueCreateInfos

/-- What vkCreateDevice answers: the status, and the handle it stores through its output
pointer (`none` when it leaves the location untouched). -/
structure VkCreateDeviceReply where
  result : VkResult
  pDevice : Option VkDevice
  deriving DecidableEq

/-- The surroundings of one grCreateDevice call: the queue families of the physical device,
the answer of vkCreateDevice, and the calls of malloc that return NULL, numbered in the order
the function makes them (0 the queue-family array, 1 the create-info array, 2 + i the
priority array of request i). -/
structure CreateDeviceEnv where
  queueFamilyProperties : List VkQueueFamilyProperties
  createDevice : VkCreateDeviceReply
  failedAllocs : List Nat
  deriving DecidableEq

/-- Outcome of grCreateDevice: the returned code, the value stored through pDevice, the
Vulkan calls in order, and the heap afterwards. -/
structure CreateDeviceOut where
  result : GR_RESULT
  device : Option GR_DEVICE
  calls : List VkCall
  heap : Heap
  deriving DecidableEq

/-- Embedding of grCreateDevice (mantle.c, lines 96-192). `requestedQueues` is the array
pRequestedQueues, its length being queueRecordCount. The result is `none` where the C code
is undefined: the scan loop or the request loop has more than INT32_MAX rounds (int counter
against a uint32 count), the scan reads a NULL queue-family array, or the request loop is
undefined (see requestStep). -/
def grCreateDevice (H : MantleHeader) (env : CreateDeviceEnv) (heap : Heap)
    (gpu : GR_PHYSICAL_GPU) (requestedQueues : List GR_DEVICE_QUEUE_CREATE_INFO) :
    Option CreateDeviceOut :=
  let queueFamilyPropertyCount := env.queueFamilyProperties.length
  let famAlloc := malloc heap queueFamilyPropertyCount (decide (0 ∈ env.failedAllocs))
  if queueFamilyPropertyCount > INT32_MAX then none
  else if famAlloc.1 = 0 ∧ 0 < queueFamilyPropertyCount then none
  else
    let scan := scanQueueFamilies env.queueFamilyProperties
    let infoAlloc := malloc famAlloc.2 requestedQueues.length (decide (1 ∈ env.failedAllocs))
    let queueCreateInfos := infoAlloc.1
    if requestedQueues.length > INT32_MAX then none
    else
      match requestLoop H scan env.failedAllocs queueCreateInfos
          ⟨GR_SUCCESS, [], infoAlloc.2⟩ requestedQueues with
      | none => none
      | some st =>
        let scanCalls : List VkCall :=
          [VkCall.vkGetPhysicalDeviceQueueFamilyProperties gpu false,
           VkCall.vkGetPhysicalDeviceQueueFamilyProperties gpu true]
        if st.res ≠ GR_SUCCESS then
          some ⟨st.res, none, scanCalls, bail st.heap queueCreateInfos st.infos⟩
        else
          let createCall := VkCall.vkCreateDevice gpu st.infos
          let device : VkDevice := env.createDevice.pDevice.getD 0
          if env.createDevice.result ≠ VK_SUCCESS then
            some ⟨GR_ERROR_INITIALIZATION_FAILED, none, scanCalls ++ [createCall],
              bail st.heap queueCreateInfos st.infos⟩
          else
            some ⟨st.res, some device, scanCalls ++ [createCall],
              bail st.heap queueCreateInfos st.infos⟩

/-- Outcome of grGetDeviceQueue. -/
structure GetDeviceQueueOut where
  result : GR_RESULT
  queue : Option GR_QUEUE
  calls : List VkCall
  deriving DecidableEq

/-- Embedding of grGetDeviceQueue (mantle.c, lines 196-209). `queueReply` is the handle
vkGetDeviceQueue stores. -/
def grGetDeviceQueue (H : MantleHeader) (queueReply : VkQueue) (device : GR_DEVICE)
    (queueType : GR_ENUM) (queueId : Nat) : GetDeviceQueueOut :=
  ⟨GR_SUCCESS, some queueReply,
    [VkCall.vkGetDeviceQueue device (getVkQueueFamilyIndex H queueType) queueId]⟩

/-- The Vulkan side of one grCreateCommandBuffer call: status and stored handle of
vkCreateCommandPool and of vkAllocateCommandBuffers. -/
structure CreateCommandBufferEnv where
  createPoolResult : VkResult
  pCommandPool : Option VkCommandPool
  allocateResult : VkResult
  pCommandBuffer : Option VkCommandBuffer
  deriving DecidableEq

/-- Outcome of grCreateCommandBuffer. -/
structure CreateCommandBufferOut where
  result : GR_RESULT
  cmdBuffer : Option GR_CMD_BUFFER
  calls : List VkCall
  deriving DecidableEq

/-- Embedding of grCreateCommandBuffer (mantle.c, lines 213-249). `queueType` is the member
of GR_CMD_BUFFER_CREATE_INFO that the source reads. -/
def grCreateCommandBuffer (H : MantleHeader) (env : CreateCommandBufferEnv)
    (device : GR_DEVICE) (queueType : GR_ENUM) : CreateCommandBufferOut :=
  let poolCall := VkCall.vkCreateCommandPool device (getVkQueueFamilyIndex H queueType)
  if env.createPoolResult ≠ VK_SUCCESS then
    ⟨GR_ERROR_OUT_OF_MEMORY, none, [poolCall]⟩
  else
    let vkCommandPool : VkCommandPool := env.pCommandPool.getD 0
    let allocCall := VkCall.vkAllocateCommandBuffers device vkCommandPool 1
    if env.allocateResult ≠ VK_SUCCESS then
      ⟨GR_ERROR_OUT_OF_MEMORY, none, [poolCall, allocCall]⟩
    else
      ⟨GR_SUCCESS, some (env.pCommandBuffer.getD 0), [poolCall, allocCall]⟩

/-- The instances destroyed by a list of Vulkan calls, in call order. -/
def destroyedInstances (calls : List VkCall) : List VkInstance :=
  calls.filterMap (fun c =>
    match c with
    | VkCall.vkDestroyInstance h => some h
    | _ => none)

/-- The handle that the vkCreateInstance of one call stores (0 when it stores none). -/
def createdInstance (x : InitEnv × GR_APPLICATION_INFO × Option GR_ALLOC_CALLBACKS) :
    VkInstance :=
  x.1.createInstance.pInstance.getD 0

/-- All Vulkan calls of a sequence of grInitAndEnumerateGpus calls, in the order they are
made. -/
def sequenceCalls : List InitOut → List VkCall
  | [] => []
  | out :: rest => out.calls ++ sequenceCalls rest

/-- A heap whose live blocks lie at non-null addresses handed out so far. -/
def Heap.fresh (h : Heap) : Prop :=
  ∀ b ∈ h.live, 0 < b.addr ∧ b.addr ≤ h.next


/-! ## Theorems: mantle_object_man.c -/

/-- C2: for every non-null object (of any type tag, the supported ones included) and the info
type MemoryRequirements, grGetObjectInfo with a non-null size location and a null data
buffer stores sizeof(GR_MEMORY_REQUIREMENTS) through the size location, returns GR_SUCCESS,
stores nothing through the data pointer and makes no call on the device. -/
theorem grGetObjectInfo_size_query (H : MantleHeader) (memReqs : VkMemoryRequirements)
    (conv : VkMemoryRequirements → GR_MEMORY_REQUIREMENTS) (obj : GrObject) (n : Nat) :
    grGetObjectInfo H memReqs conv (some obj) H.GR_INFO_TYPE_MEMORY_REQUIREMENTS (some n) none
      = ⟨GR_SUCCESS, some H.sizeofMemoryRequirements, none, []⟩ := by
  simp [grGetObjectInfo]

/-- C3: for every non-null object, non-null size location and non-null data buffer whose
declared size differs, smaller or larger, from the expected structure size
sizeof(GR_MEMORY_REQUIREMENTS) of the info type MemoryRequirements, grGetObjectInfo returns
GR_ERROR_INVALID_MEMORY_SIZE and stores nothing through the data pointer. An info type the
switch does not know has no expected structure size and gives GR_ERROR_INVALID_VALUE.
Nothing is stored through the size location either, and no call is made on the device. -/
theorem grGetObjectInfo_wrong_size (H : MantleHeader) (memReqs : VkMemoryRequirements)
    (conv : VkMemoryRequirements → GR_MEMORY_REQUIREMENTS) (obj : GrObject)
    (infoType : GR_ENUM) (n a : Nat) (hsize : n ≠ H.sizeofMemoryRequirements) :
    grGetObjectInfo H memReqs conv (some obj) infoType (some n) (some a)
      = ⟨if infoType = H.GR_INFO_TYPE_MEMORY_REQUIREMENTS then GR_ERROR_INVALID_MEMORY_SIZE
          else GR_ERROR_INVALID_VALUE, none, none, []⟩ := by
  by_cases hi : infoType = H.GR_INFO_TYPE_MEMORY_REQUIREMENTS <;>
    simp [grGetObjectInfo, hi, hsize]

/-- Witness of C3: an undersized and an oversized buffer. -/
theorem grGetObjectInfo_wrong_size_witness :
    (55 ≠ mantle10.sizeofMemoryRequirements ∧
      grGetObjectInfo mantle10 ⟨64, 16, 1⟩ (fun m => ⟨m.size, m.alignment, 1⟩)
          (some ⟨GR_OBJ_TYPE_IMAGE, ⟨1⟩, 2⟩) mantle10.GR_INFO_TYPE_MEMORY_REQUIREMENTS
          (some 55) (some 4096)
        = ⟨GR_ERROR_INVALID_MEMORY_SIZE, none, none, []⟩) ∧
    (57 ≠ mantle10.sizeofMemoryRequirements ∧
      grGetObjectInfo mantle10 ⟨64, 16, 1⟩ (fun m => ⟨m.size, m.alignment, 1⟩)
          (some ⟨GR_OBJ_TYPE_PIPELINE, ⟨1⟩, 0⟩) mantle10.GR_INFO_TYPE_MEMORY_REQUIREMENTS
          (some 57) (some 4096)
        = ⟨GR_ERROR_INVALID_MEMORY_SIZE, none, none, []⟩) :=
  ⟨⟨by decide, grGetObjectInfo_wrong_size mantle10 _ _ _
      mantle10.GR_INFO_TYPE_MEMORY_REQUIREMENTS 55 4096 (by decide)⟩,
   ⟨by decide, grGetObjectInfo_wrong_size mantle10 _ _ _
      mantle10.GR_INFO_TYPE_MEMORY_REQUIREMENTS 57 4096 (by decide)⟩⟩

/-- C4: for every object whose type tag is descriptor set or pipeline,
grGetObjectInfo(MemoryRequirements) with a buffer of the exact size returns GR_SUCCESS and
stores the one value (size 4, alignment 4, heapCount 0), whatever the object, its device
and the answers of the device, without any device call; and grBindObjectMemory on the object
returns GR_SUCCESS for every memory handle (null included) and every offset, again without
any device call. -/
theorem descriptor_set_and_pipeline_memory (H : MantleHeader) (memReqs : VkMemoryRequirements)
    (conv : VkMemoryRequirements → GR_MEMORY_REQUIREMENTS) (obj : GrObject) (a : Nat)
    (bindReply : VkResult) (mem : Option GrGpuMemory) (offset : Nat)
    (hty : obj.grObjType = GR_OBJ_TYPE_DESCRIPTOR_SET ∨ obj.grObjType = GR_OBJ_TYPE_PIPELINE) :
    grGetObjectInfo H memReqs conv (some obj) H.GR_INFO_TYPE_MEMORY_REQUIREMENTS
        (some H.sizeofMemoryRequirements) (some a)
      = ⟨GR_SUCCESS, none, some { size := 4, alignment := 4, heapCount := 0 }, []⟩ ∧
    grBindObjectMemory bindReply (some obj) mem offset = some ⟨GR_SUCCESS, []⟩ := by
  rcases hty with h | h <;> simp [grGetObjectInfo, grBindObjectMemory, getGrResult, h]

/-- Witness of C4: a pipeline object, a failing bind reply and a null memory handle. -/
theorem descriptor_set_and_pipeline_memory_witness :
    ((⟨GR_OBJ_TYPE_PIPELINE, ⟨1⟩, 0⟩ : GrObject).grObjType = GR_OBJ_TYPE_DESCRIPTOR_SET ∨
      (⟨GR_OBJ_TYPE_PIPELINE, ⟨1⟩, 0⟩ : GrObject).grObjType = GR_OBJ_TYPE_PIPELINE) ∧
    grGetObjectInfo mantle10 ⟨64, 16, 1⟩ (fun m => ⟨m.size, m.alignment, 1⟩)
        (some ⟨GR_OBJ_TYPE_PIPELINE, ⟨1⟩, 0⟩) mantle10.GR_INFO_TYPE_MEMORY_REQUIREMENTS
        (some mantle10.sizeofMemoryRequirements) (some 4096)
      = ⟨GR_SUCCESS, none, some { size := 4, alignment := 4, heapCount := 0 }, []⟩ ∧
    grBindObjectMemory (-1) (some ⟨GR_OBJ_TYPE_PIPELINE, ⟨1⟩, 0⟩) none 256
      = some ⟨GR_SUCCESS, []⟩ :=
  ⟨Or.inr rfl,
   descriptor_set_and_pipeline_memory mantle10 _ _ ⟨GR_OBJ_TYPE_PIPELINE, ⟨1⟩, 0⟩ 4096 (-1) none
    256 (Or.inr rfl)⟩

/-- C5: for every image object, memory object and offset, grBindObjectMemory makes exactly
one device call, vkBindImageMemory on the device of the image header, with the image, the
deviceMemory of the memory object and the given offset unchanged, and returns getGrResult of
the status of that call, which is GR_SUCCESS exactly when that status is VK_SUCCESS: a
failing bind gives a result other than GR_SUCCESS. -/
theorem grBindObjectMemory_image (bindReply : VkResult) (obj : GrObject) (mem : GrGpuMemory)
    (offset : Nat) (hty : obj.grObjType = GR_OBJ_TYPE_IMAGE) :
    grBindObjectMemory bindReply (some obj) (some mem) offset
      = some ⟨getGrResult bindReply,
          [VkCall.vkBindImageMemory obj.grDevice.device obj.image mem.deviceMemory offset]⟩ ∧
    (getGrResult bindReply = GR_SUCCESS ↔ bindReply = VK_SUCCESS) := by
  constructor
  · simp [grBindObjectMemory, hty]
  · by_cases hs : bindReply = VK_SUCCESS <;> simp [getGrResult, hs]

/-- Witness of C5: an image on device 7 bound at offset 256 with a failing bind. -/
theorem grBindObjectMemory_image_witness :
    (⟨GR_OBJ_TYPE_IMAGE, ⟨7⟩, 11⟩ : GrObject).grObjType = GR_OBJ_TYPE_IMAGE ∧
    grBindObjectMemory (-2) (some ⟨GR_OBJ_TYPE_IMAGE, ⟨7⟩, 11⟩) (some ⟨13⟩) 256
      = some ⟨getGrResult (-2), [VkCall.vkBindImageMemory 7 11 13 256]⟩ ∧
    (getGrResult (-2) = GR_SUCCESS ↔ (-2 : VkResult) = VK_SUCCESS) :=
  ⟨rfl, grBindObjectMemory_image (-2) ⟨GR_OBJ_TYPE_IMAGE, ⟨7⟩, 11⟩ ⟨13⟩ 256 rfl⟩

/-! ## Theorems: grCreateDevice -/

/-- A step of the request loop that is defined: the requested count fits an int, the
create-info array is not NULL, and the new state is the old one with the pending result
updated by the count test, one create-info appended and the priority array allocated. -/
theorem requestStep_eq_some (H : MantleHeader) (scan : QueueScan) (failed : List Nat)
    (qci : Nat) (st st1 : RequestLoop) (r : GR_DEVICE_QUEUE_CREATE_INFO)
    (h : requestStep H scan failed qci st r = some st1) :
    r.queueCount ≤ INT32_MAX ∧ qci ≠ 0 ∧
    st1 =
      { res := if queueCountMismatch H scan r then GR_ERROR_INVALID_VALUE else st.res
        infos := st.infos ++
          [⟨if r.queueType = H.GR_QUEUE_UNIVERSAL then scan.universalQueueIndex
              else scan.computeQueueIndex, r.queueCount,
            (malloc st.heap r.queueCount (decide (2 + st.infos.length ∈ failed))).1,
            List.replicate r.queueCount 1⟩]
        heap := (malloc st.heap r.queueCount (decide (2 + st.infos.length ∈ failed))).2 } := by
  unfold requestStep fillPriorities at h
  by_cases hc : r.queueCount > INT32_MAX
  · simp [hc] at h
  · by_cases hn : (malloc st.heap r.queueCount (decide (2 + st.infos.length ∈ failed))).1 = 0 ∧
        0 < r.queueCount
    · simp [hc, hn] at h
    · by_cases hq : qci = 0
      · simp [hc, hn, hq] at h
      · simp only [hc, hn, hq, if_false] at h
        refine ⟨by omega, hq, ?_⟩
        simpa using h.symm

/-- A step of the request loop is defined when the requested count fits an int, no
allocation fails and the create-info array is not NULL. -/
theorem requestStep_defined (H : MantleHeader) (scan : QueueScan) (qci : Nat)
    (st : RequestLoop) (r : GR_DEVICE_QUEUE_CREATE_INFO)
    (hc : r.queueCount ≤ INT32_MAX) (hq : qci ≠ 0) :
    ∃ st1, requestStep H scan [] qci st r = some st1 := by
  have hc1 : ¬ r.queueCount > INT32_MAX := by omega
  simp [requestStep, fillPriorities, malloc, hc1, hq]

/-- The pending result after the request loop: GR_ERROR_INVALID_VALUE when some request
fails the count test, the result before the loop otherwise. -/
theorem requestLoop_res (H : MantleHeader) (scan : QueueScan) (failed : List Nat) (qci : Nat)
    (reqs : List GR_DEVICE_QUEUE_CREATE_INFO) :
    ∀ st st1 : RequestLoop, requestLoop H scan failed qci st reqs = some st1 →
      st1.res = if (∃ r ∈ reqs, queueCountMismatch H scan r) then GR_ERROR_INVALID_VALUE
        else st.res := by
  induction reqs with
  | nil => intro st st1 h; simp [requestLoop] at h; simp [h]
  | cons r rest ih =>
    intro st st1 h
    simp only [requestLoop] at h
    cases hstep : requestStep H scan failed qci st r with
    | none => simp [hstep] at h
    | some st2 =>
      simp only [hstep] at h
      have h2 := (requestStep_eq_some H scan failed qci st st2 r hstep).2.2
      have h3 := ih st2 st1 h
      rw [h3, h2]
      by_cases hr : queueCountMismatch H scan r <;>
        by_cases hrest : ∃ q ∈ rest, queueCountMismatch H scan q <;>
        simp [hr, hrest]

/-- The family indices that the request loop writes: one per request, the universal index of
the scan for a universal request and the compute index of the scan for every other. -/
theorem requestLoop_family_indices (H : MantleHeader) (scan : QueueScan) (failed : List Nat)
    (qci : Nat) (reqs : List GR_DEVICE_QUEUE_CREATE_INFO) :
    ∀ st st1 : RequestLoop, requestLoop H scan failed qci st reqs = some st1 →
      st1.infos.map (fun ci => ci.queueFamilyIndex)
        = st.infos.map (fun ci => ci.queueFamilyIndex) ++
          reqs.map (fun r => if r.queueType = H.GR_QUEUE_UNIVERSAL
            then scan.universalQueueIndex else scan.computeQueueIndex) := by
  induction reqs with
  | nil => intro st st1 h; simp [requestLoop] at h; simp [h]
  | cons r rest ih =>
    intro st st1 h
    simp only [requestLoop] at h
    cases hstep : requestStep H scan failed qci st r with
    | none => simp [hstep] at h
    | some st2 =>
      simp only [hstep] at h
      have h2 := (requestStep_eq_some H scan failed qci st st2 r hstep).2.2
      rw [ih st2 st1 h, h2]
      simp

/-- The request loop is defined when every requested count fits an int, no allocation fails
and the create-info array is not NULL. -/
theorem requestLoop_defined (H : MantleHeader) (scan : QueueScan) (qci : Nat)
    (reqs : List GR_DEVICE_QUEUE_CREATE_INFO)
    (hc : ∀ r ∈ reqs, r.queueCount ≤ INT32_MAX) (hq : qci ≠ 0) :
    ∀ st : RequestLoop, ∃ st1, requestLoop H scan [] qci st reqs = some st1 := by
  induction reqs with
  | nil => intro st; exact ⟨st, rfl⟩
  | cons r rest ih =>
    intro st
    obtain ⟨st2, h2⟩ := requestStep_defined H scan qci st r (hc r (List.mem_cons_self _ _)) hq
    obtain ⟨st1, h1⟩ := ih (fun q hq1 => hc q (List.mem_cons_of_mem _ hq1)) st2
    exact ⟨st1, by simp [requestLoop, h2, h1]⟩

/-- The request loop is undefined as soon as one requested count exceeds INT32_MAX. -/
theorem requestLoop_undefined (H : MantleHeader) (scan : QueueScan) (failed : List Nat)
    (qci : Nat) (reqs : List GR_DEVICE_QUEUE_CREATE_INFO)
    (hbig : ∃ r ∈ reqs, INT32_MAX < r.queueCount) :
    ∀ st : RequestLoop, requestLoop H scan failed qci st reqs = none := by
  induction reqs with
  | nil => simp at hbig
  | cons r rest ih =>
    intro st
    simp only [requestLoop]
    cases hstep : requestStep H scan failed qci st r with
    | none => rfl
    | some st2 =>
      simp only
      obtain ⟨q, hq, hlt⟩ := hbig
      rcases List.mem_cons.1 hq with hqr | hqrest
      · subst hqr
        have := (requestStep_eq_some H scan failed qci st st2 q hstep).1
        omega
      · exact ih ⟨q, hqrest, hlt⟩ st2

/-- With no failing allocation and all three counts within the range of int, grCreateDevice
is defined: the request loop ends in a state `st`, and the outcome is read off `st` on the
three exit paths. -/
theorem grCreateDevice_defined (H : MantleHeader) (fams : List VkQueueFamilyProperties)
    (reply : VkCreateDeviceReply) (heap : Heap) (gpu : GR_PHYSICAL_GPU)
    (reqs : List GR_DEVICE_QUEUE_CREATE_INFO)
    (hfams : fams.length ≤ INT32_MAX) (hreqs : reqs.length ≤ INT32_MAX)
    (hcounts : ∀ r ∈ reqs, r.queueCount ≤ INT32_MAX) :
    ∃ st : RequestLoop,
      requestLoop H (scanQueueFamilies fams) [] (heap.next + 1 + 1)
        ⟨GR_SUCCESS, [],
          ⟨heap.next + 1 + 1,
            heap.live ++ [⟨heap.next + 1, fams.length⟩] ++ [⟨heap.next + 1 + 1, reqs.length⟩]⟩⟩
        reqs = some st ∧
      grCreateDevice H ⟨fams, reply, []⟩ heap gpu reqs =
        some
          (if st.res ≠ GR_SUCCESS then
            ⟨st.res, none,
              [VkCall.vkGetPhysicalDeviceQueueFamilyProperties gpu false,
               VkCall.vkGetPhysicalDeviceQueueFamilyProperties gpu true],
              bail st.heap (heap.next + 1 + 1) st.infos⟩
          else if reply.result ≠ VK_SUCCESS then
            ⟨GR_ERROR_INITIALIZATION_FAILED, none,
              [VkCall.vkGetPhysicalDeviceQueueFamilyProperties gpu false,
               VkCall.vkGetPhysicalDeviceQueueFamilyProperties gpu true,
               VkCall.vkCreateDevice gpu st.infos],
              bail st.heap (heap.next + 1 + 1) st.infos⟩
          else
            ⟨st.res, some (reply.pDevice.getD 0),
              [VkCall.vkGetPhysicalDeviceQueueFamilyProperties gpu false,
               VkCall.vkGetPhysicalDeviceQueueFamilyProperties gpu true,
               VkCall.vkCreateDevice gpu st.infos],
              bail st.heap (heap.next + 1 + 1) st.infos⟩) := by
  obtain ⟨st, hst⟩ := requestLoop_defined H (scanQueueFamilies fams) (heap.next + 1 + 1) reqs
    hcounts (by omega)
    ⟨GR_SUCCESS, [],
      ⟨heap.next + 1 + 1,
        heap.live ++ [⟨heap.next + 1, fams.length⟩] ++ [⟨heap.next + 1 + 1, reqs.length⟩]⟩⟩
  refine ⟨st, hst, ?_⟩
  have hf1 : ¬ fams.length > INT32_MAX := by omega
  have hr1 : ¬ reqs.length > INT32_MAX := by omega
  simp only [grCreateDevice, malloc, List.not_mem_nil, decide_False, Bool.false_eq_true,
    if_false, hf1, hr1, Nat.add_one_ne_zero, false_and, hst]
  split
  · rfl
  · split <;> simp

/-- C1 (amended): for every queue-family list and every list of requested queues whose
lengths and whose requested counts are at most INT32_MAX, when no malloc call fails and some
request fails the count test of lines 141-144 (a universal request whose queueCount differs
from the scanned universal count, or a compute request whose queueCount differs from the
scanned compute count), grCreateDevice returns GR_ERROR_INVALID_VALUE, its only Vulkan calls
are the two queue-family queries, so that vkCreateDevice is not called, and nothing is
stored through pDevice. -/
theorem grCreateDevice_count_mismatch (H : MantleHeader) (fams : List VkQueueFamilyProperties)
    (reply : VkCreateDeviceReply) (heap : Heap) (gpu : GR_PHYSICAL_GPU)
    (reqs : List GR_DEVICE_QUEUE_CREATE_INFO)
    (hfams : fams.length ≤ INT32_MAX) (hreqs : reqs.length ≤ INT32_MAX)
    (hcounts : ∀ r ∈ reqs, r.queueCount ≤ INT32_MAX)
    (hmis : ∃ r ∈ reqs,
      (r.queueType = H.GR_QUEUE_UNIVERSAL ∧
          r.queueCount ≠ (scanQueueFamilies fams).universalQueueCount) ∨
        (r.queueType = H.GR_QUEUE_COMPUTE ∧
          r.queueCount ≠ (scanQueueFamilies fams).computeQueueCount)) :
    ∃ out, grCreateDevice H ⟨fams, reply, []⟩ heap gpu reqs = some out ∧
      out.result = GR_ERROR_INVALID_VALUE ∧
      out.calls =
        [VkCall.vkGetPhysicalDeviceQueueFamilyProperties gpu false,
         VkCall.vkGetPhysicalDeviceQueueFamilyProperties gpu true] ∧
      (∀ g infos, VkCall.vkCreateDevice g infos ∉ out.calls) ∧
      out.device = none := by
  obtain ⟨st, hst, hout⟩ := grCreateDevice_defined H fams reply heap gpu reqs hfams hreqs hcounts
  have hres := requestLoop_res H (scanQueueFamilies fams) [] _ reqs _ st hst
  have hmm : ∃ r ∈ reqs, queueCountMismatch H (scanQueueFamilies fams) r := hmis
  rw [if_pos hmm] at hres
  refine ⟨_, hout, ?_⟩
  simp [hres]

/-- A scan that overwrites an index and a count at every family satisfying `P` ends with
the index and count of the last such family, or with the initial values when no family
satisfies `P`. -/
theorem scanFrom_last (P : VkQueueFamilyProperties → Prop) (idx cnt : QueueScan → Nat)
    (hhit : ∀ s i p, P p →
      idx (scanFamily s i p) = i ∧ cnt (scanFamily s i p) = p.queueCount)
    (hmiss : ∀ s i p, ¬ P p →
      idx (scanFamily s i p) = idx s ∧ cnt (scanFamily s i p) = cnt s)
    (fams : List VkQueueFamilyProperties) :
    ∀ (i : Nat) (s : QueueScan),
      ((∀ f ∈ fams, ¬ P f) ∧ idx (scanFrom i s fams) = idx s ∧
          cnt (scanFrom i s fams) = cnt s) ∨
      (∃ k, ∃ hk : k < fams.length,
          idx (scanFrom i s fams) = i + k ∧ cnt (scanFrom i s fams) = fams[k].queueCount ∧
          P fams[k] ∧ ∀ j, ∀ hj : j < fams.length, k < j → ¬ P fams[j]) := by
  induction fams with
  | nil => intro i s; left; simp [scanFrom]
  | cons p rest ih =>
    intro i s
    simp only [scanFrom]
    rcases ih (i + 1) (scanFamily s i p) with ⟨hnone, hidx, hcnt⟩ | ⟨k, hk, hidx, hcnt, hP, hlast⟩
    · by_cases hp : P p
      · right
        refine ⟨0, by simp, ?_, ?_, by simpa using hp, ?_⟩
        · rw [hidx]; exact (hhit s i p hp).1
        · rw [hcnt]; simpa using (hhit s i p hp).2
        · intro j hj hkj
          cases j with
          | zero => omega
          | succ j =>
            simp only [List.getElem_cons_succ]
            exact hnone _ (List.getElem_mem _)
      · left
        refine ⟨?_, ?_, ?_⟩
        · intro f hf
          rcases List.mem_cons.1 hf with hfp | hfr
          · subst hfp; exact hp
          · exact hnone f hfr
        · rw [hidx]; exact (hmiss s i p hp).1
        · rw [hcnt]; exact (hmiss s i p hp).2
    · right
      refine ⟨k + 1, by simpa using hk, ?_, ?_, by simpa using hP, ?_⟩
      · rw [hidx]; omega
      · rw [hcnt]; simp
      · intro j hj hkj
        cases j with
        | zero => omega
        | succ j =>
          simp only [List.getElem_cons_succ]
          exact hlast j (by simpa using hj) (by omega)

/-- Witness of C1 (amended): one combined family with 2 queues and three universal requests,
the second of which asks for 1 queue. -/
theorem grCreateDevice_count_mismatch_witness :
    ([⟨3, 2⟩] : List VkQueueFamilyProperties).length ≤ INT32_MAX ∧
    (∃ r ∈ [(⟨mantle10.GR_QUEUE_UNIVERSAL, 2⟩ : GR_DEVICE_QUEUE_CREATE_INFO),
          ⟨mantle10.GR_QUEUE_UNIVERSAL, 1⟩, ⟨mantle10.GR_QUEUE_UNIVERSAL, 2⟩],
      (r.queueType = mantle10.GR_QUEUE_UNIVERSAL ∧
          r.queueCount ≠ (scanQueueFamilies [⟨3, 2⟩]).universalQueueCount) ∨
        (r.queueType = mantle10.GR_QUEUE_COMPUTE ∧
          r.queueCount ≠ (scanQueueFamilies [⟨3, 2⟩]).computeQueueCount)) ∧
    (∃ out, grCreateDevice mantle10 ⟨[⟨3, 2⟩], ⟨0, some 7⟩, []⟩ ⟨0, []⟩ 5
        [⟨mantle10.GR_QUEUE_UNIVERSAL, 2⟩, ⟨mantle10.GR_QUEUE_UNIVERSAL, 1⟩,
          ⟨mantle10.GR_QUEUE_UNIVERSAL, 2⟩] = some out ∧
      out.result = GR_ERROR_INVALID_VALUE ∧
      out.calls =
        [VkCall.vkGetPhysicalDeviceQueueFamilyProperties 5 false,
         VkCall.vkGetPhysicalDeviceQueueFamilyProperties 5 true] ∧
      (∀ g infos, VkCall.vkCreateDevice g infos ∉ out.calls) ∧
      out.device = none) :=
  have hmis : ∃ r ∈ [(⟨mantle10.GR_QUEUE_UNIVERSAL, 2⟩ : GR_DEVICE_QUEUE_CREATE_INFO),
          ⟨mantle10.GR_QUEUE_UNIVERSAL, 1⟩, ⟨mantle10.GR_QUEUE_UNIVERSAL, 2⟩],
      (r.queueType = mantle10.GR_QUEUE_UNIVERSAL ∧
          r.queueCount ≠ (scanQueueFamilies [⟨3, 2⟩]).universalQueueCount) ∨
        (r.queueType = mantle10.GR_QUEUE_COMPUTE ∧
          r.queueCount ≠ (scanQueueFamilies [⟨3, 2⟩]).computeQueueCount) :=
    ⟨⟨mantle10.GR_QUEUE_UNIVERSAL, 1⟩, by decide, by decide⟩
  ⟨by decide, hmis,
    grCreateDevice_count_mismatch mantle10 [⟨3, 2⟩] ⟨0, some 7⟩ ⟨0, []⟩ 5 _ (by decide)
      (by decide) (by decide) hmis⟩

/-- C1, as stated, fails: with one combined family of 1 queue, a universal request for
2147483648 queues has a mismatching count, and grCreateDevice is undefined on it (the int
counter of the priority fill overflows before the count test); a universal request for 2
queues whose priority array cannot be allocated mismatches too, and the fill stores through
NULL. In neither case does the function return GR_ERROR_INVALID_VALUE. -/
theorem grCreateDevice_undefined_before_count_test :
    ((2147483648 : Nat) ≠ (scanQueueFamilies [⟨3, 1⟩]).universalQueueCount ∧
      grCreateDevice mantle10 ⟨[⟨3, 1⟩], ⟨0, some 7⟩, []⟩ ⟨0, []⟩ 5
        [⟨mantle10.GR_QUEUE_UNIVERSAL, 2147483648⟩] = none) ∧
    ((2 : Nat) ≠ (scanQueueFamilies [⟨3, 1⟩]).universalQueueCount ∧
      grCreateDevice mantle10 ⟨[⟨3, 1⟩], ⟨0, some 7⟩, [2]⟩ ⟨0, []⟩ 5
        [⟨mantle10.GR_QUEUE_UNIVERSAL, 2⟩] = none) := by
  decide

/-- C10, as stated, fails: with two combined graphics+compute families (1 queue, then 2
queues) the scan ends on index 1 and count 2, those of the last such family and not of the
first, and a universal request for the 1 queue of the first family is rejected while a
request for 2 queues is passed on with family index 1; with two compute-only families the
compute index is 1 as well. -/
theorem scan_keeps_last_family :
    isUniversalFamily (⟨3, 1⟩ : VkQueueFamilyProperties) ∧
    (scanQueueFamilies [⟨3, 1⟩, ⟨3, 2⟩]).universalQueueIndex = 1 ∧
    (scanQueueFamilies [⟨3, 1⟩, ⟨3, 2⟩]).universalQueueCount = 2 ∧
    (grCreateDevice mantle10 ⟨[⟨3, 1⟩, ⟨3, 2⟩], ⟨0, some 7⟩, []⟩ ⟨0, []⟩ 5
        [⟨mantle10.GR_QUEUE_UNIVERSAL, 1⟩]).map (fun out => out.result)
      = some GR_ERROR_INVALID_VALUE ∧
    (grCreateDevice mantle10 ⟨[⟨3, 1⟩, ⟨3, 2⟩], ⟨0, some 7⟩, []⟩ ⟨0, []⟩ 5
        [⟨mantle10.GR_QUEUE_UNIVERSAL, 2⟩]).map (fun out => out.calls) =
      some [VkCall.vkGetPhysicalDeviceQueueFamilyProperties 5 false,
       VkCall.vkGetPhysicalDeviceQueueFamilyProperties 5 true,
       VkCall.vkCreateDevice 5 [⟨1, 2, 3, [1, 1]⟩]] ∧
    (¬ isUniversalFamily (⟨2, 1⟩ : VkQueueFamilyProperties) ∧
      hasComputeBit (⟨2, 1⟩ : VkQueueFamilyProperties)) ∧
    (scanQueueFamilies [⟨2, 1⟩, ⟨2, 4⟩]).computeQueueIndex = 1 ∧
    (scanQueueFamilies [⟨2, 1⟩, ⟨2, 4⟩]).computeQueueCount = 4 := by
  decide

/-- C10 (amended): for every queue-family list and every list of requested queues whose
lengths and requested counts are at most INT32_MAX, when no malloc call fails: the universal
index and count of the scan are the index and queueCount of the last (highest-index) family
that holds both the graphics and the compute bit, or 4294967295 and 0 when there is none; the
compute index and count are those of the last family that holds the compute bit without
being a combined family, or 4294967295 and 0 when there is none; grCreateDevice returns
GR_ERROR_INVALID_VALUE exactly when some universal request has a queueCount other than that
universal count or some compute request a queueCount other than that compute count; when no
request is rejected vkCreateDevice is called; and the family indices passed to vkCreateDevice
are, request by request, that universal index for a universal request and that compute index
for every other request. -/
theorem scan_records_last_match (H : MantleHeader) (fams : List VkQueueFamilyProperties)
    (reply : VkCreateDeviceReply) (heap : Heap) (gpu : GR_PHYSICAL_GPU)
    (reqs : List GR_DEVICE_QUEUE_CREATE_INFO)
    (hfams : fams.length ≤ INT32_MAX) (hreqs : reqs.length ≤ INT32_MAX)
    (hcounts : ∀ r ∈ reqs, r.queueCount ≤ INT32_MAX) :
    (((∀ f ∈ fams, ¬ isUniversalFamily f) ∧
        (scanQueueFamilies fams).universalQueueIndex = 4294967295 ∧
        (scanQueueFamilies fams).universalQueueCount = 0) ∨
      (∃ k, ∃ hk : k < fams.length,
        (scanQueueFamilies fams).universalQueueIndex = k ∧
        (scanQueueFamilies fams).universalQueueCount = fams[k].queueCount ∧
        isUniversalFamily fams[k] ∧
        ∀ j, ∀ hj : j < fams.length, k < j → ¬ isUniversalFamily fams[j])) ∧
    (((∀ f ∈ fams, ¬ (¬ isUniversalFamily f ∧ hasComputeBit f)) ∧
        (scanQueueFamilies fams).computeQueueIndex = 4294967295 ∧
        (scanQueueFamilies fams).computeQueueCount = 0) ∨
      (∃ k, ∃ hk : k < fams.length,
        (scanQueueFamilies fams).computeQueueIndex = k ∧
        (scanQueueFamilies fams).computeQueueCount = fams[k].queueCount ∧
        (¬ isUniversalFamily fams[k] ∧ hasComputeBit fams[k]) ∧
        ∀ j, ∀ hj : j < fams.length, k < j →
          ¬ (¬ isUniversalFamily fams[j] ∧ hasComputeBit fams[j]))) ∧
    (∃ out, grCreateDevice H ⟨fams, reply, []⟩ heap gpu reqs = some out ∧
      (out.result = GR_ERROR_INVALID_VALUE ↔
        ∃ r ∈ reqs,
          (r.queueType = H.GR_QUEUE_UNIVERSAL ∧
              r.queueCount ≠ (scanQueueFamilies fams).universalQueueCount) ∨
            (r.queueType = H.GR_QUEUE_COMPUTE ∧
              r.queueCount ≠ (scanQueueFamilies fams).computeQueueCount)) ∧
      (out.result ≠ GR_ERROR_INVALID_VALUE →
        ∃ infos, VkCall.vkCreateDevice gpu infos ∈ out.calls) ∧
      (∀ g infos, VkCall.vkCreateDevice g infos ∈ out.calls →
        infos.map (fun ci => ci.queueFamilyIndex) =
          reqs.map (fun r => if r.queueType = H.GR_QUEUE_UNIVERSAL
            then (scanQueueFamilies fams).universalQueueIndex
            else (scanQueueFamilies fams).computeQueueIndex))) := by
  refine ⟨?_, ?_, ?_⟩
  · have h := scanFrom_last isUniversalFamily (fun s => s.universalQueueIndex)
      (fun s => s.universalQueueCount)
      (by intro s i p hp; simp [scanFamily, hp])
      (by
        intro s i p hp
        by_cases hc : hasComputeBit p <;> simp [scanFamily, hp, hc])
      fams 0 QueueScan.start
    simpa [scanQueueFamilies, QueueScan.start] using h
  · have h := scanFrom_last (fun p => ¬ isUniversalFamily p ∧ hasComputeBit p)
      (fun s => s.computeQueueIndex) (fun s => s.computeQueueCount)
      (by intro s i p hp; simp [scanFamily, hp.1, hp.2])
      (by
        intro s i p hp
        by_cases hu : isUniversalFamily p
        · simp [scanFamily, hu]
        · have hc : ¬ hasComputeBit p := fun hc => hp ⟨hu, hc⟩
          simp [scanFamily, hu, hc])
      fams 0 QueueScan.start
    simpa [scanQueueFamilies, QueueScan.start] using h
  · obtain ⟨st, hst, hout⟩ :=
      grCreateDevice_defined H fams reply heap gpu reqs hfams hreqs hcounts
    have hres := requestLoop_res H (scanQueueFamilies fams) [] _ reqs _ st hst
    have hidx := requestLoop_family_indices H (scanQueueFamilies fams) [] _ reqs _ st hst
    simp only [List.map_nil, List.nil_append] at hidx
    refine ⟨_, hout, ?_⟩
    by_cases hmm : ∃ r ∈ reqs, queueCountMismatch H (scanQueueFamilies fams) r
    · have hmm1 := hmm
      simp only [queueCountMismatch] at hmm1
      rw [if_pos hmm] at hres
      simp [hres, hmm1]
    · have hmm1 := hmm
      simp only [queueCountMismatch] at hmm1
      rw [if_neg hmm] at hres
      by_cases hr : reply.result = VK_SUCCESS
      · simp only [hres, hr, ne_eq, not_true_eq_false, if_false]
        refine ⟨by simp [hmm1], by simp, ?_⟩
        intro g infos hmem
        simp at hmem
        rw [hmem.2]
        exact hidx
      · simp only [hres, hr, ne_eq, not_true_eq_false, not_false_eq_true, if_false, if_true]
        refine ⟨by simp [hmm1], by simp, ?_⟩
        intro g infos hmem
        simp at hmem
        rw [hmem.2]
        exact hidx

/-- Witness of C10 (amended): two combined families and a compute-only family, one universal
and one compute request. -/
theorem scan_records_last_match_witness :
    ([⟨3, 1⟩, ⟨3, 2⟩, ⟨2, 4⟩] : List VkQueueFamilyProperties).length ≤ INT32_MAX ∧
    ([⟨mantle10.GR_QUEUE_UNIVERSAL, 2⟩, ⟨mantle10.GR_QUEUE_COMPUTE, 4⟩] :
      List GR_DEVICE_QUEUE_CREATE_INFO).length ≤ INT32_MAX ∧
    (∀ r ∈ ([⟨mantle10.GR_QUEUE_UNIVERSAL, 2⟩, ⟨mantle10.GR_QUEUE_COMPUTE, 4⟩] :
      List GR_DEVICE_QUEUE_CREATE_INFO), r.queueCount ≤ INT32_MAX) ∧
    (∃ out, grCreateDevice mantle10 ⟨[⟨3, 1⟩, ⟨3, 2⟩, ⟨2, 4⟩], ⟨0, some 7⟩, []⟩ ⟨0, []⟩ 5
        [⟨mantle10.GR_QUEUE_UNIVERSAL, 2⟩, ⟨mantle10.GR_QUEUE_COMPUTE, 4⟩] = some out ∧
      (out.result = GR_ERROR_INVALID_VALUE ↔
        ∃ r ∈ ([⟨mantle10.GR_QUEUE_UNIVERSAL, 2⟩, ⟨mantle10.GR_QUEUE_COMPUTE, 4⟩] :
            List GR_DEVICE_QUEUE_CREATE_INFO),
          (r.queueType = mantle10.GR_QUEUE_UNIVERSAL ∧
              r.queueCount ≠
                (scanQueueFamilies [⟨3, 1⟩, ⟨3, 2⟩, ⟨2, 4⟩]).universalQueueCount) ∨
            (r.queueType = mantle10.GR_QUEUE_COMPUTE ∧
              r.queueCount ≠
                (scanQueueFamilies [⟨3, 1⟩, ⟨3, 2⟩, ⟨2, 4⟩]).computeQueueCount)) ∧
      (out.result ≠ GR_ERROR_INVALID_VALUE →
        ∃ infos, VkCall.vkCreateDevice 5 infos ∈ out.calls) ∧
      (∀ g infos, VkCall.vkCreateDevice g infos ∈ out.calls →
        infos.map (fun ci => ci.queueFamilyIndex) =
          ([⟨mantle10.GR_QUEUE_UNIVERSAL, 2⟩, ⟨mantle10.GR_QUEUE_COMPUTE, 4⟩] :
            List GR_DEVICE_QUEUE_CREATE_INFO).map
            (fun r => if r.queueType = mantle10.GR_QUEUE_UNIVERSAL
              then (scanQueueFamilies [⟨3, 1⟩, ⟨3, 2⟩, ⟨2, 4⟩]).universalQueueIndex
              else (scanQueueFamilies [⟨3, 1⟩, ⟨3, 2⟩, ⟨2, 4⟩]).computeQueueIndex))) :=
  ⟨by decide, by decide, by decide,
    (scan_records_last_match mantle10 [⟨3, 1⟩, ⟨3, 2⟩, ⟨2, 4⟩] ⟨0, some 7⟩ ⟨0, []⟩ 5
      [⟨mantle10.GR_QUEUE_UNIVERSAL, 2⟩, ⟨mantle10.GR_QUEUE_COMPUTE, 4⟩]
      (by decide) (by decide) (by decide)).2.2⟩

/-- The same input evaluated: the universal request gets family 1 and the compute request
family 2, the last families of their kinds. -/
theorem last_families_evaluated :
    grCreateDevice mantle10 ⟨[⟨3, 1⟩, ⟨3, 2⟩, ⟨2, 4⟩], ⟨0, some 7⟩, []⟩ ⟨0, []⟩ 5
        [⟨mantle10.GR_QUEUE_UNIVERSAL, 2⟩, ⟨mantle10.GR_QUEUE_COMPUTE, 4⟩]
      = some ⟨GR_SUCCESS, some 7,
          [VkCall.vkGetPhysicalDeviceQueueFamilyProperties 5 false,
           VkCall.vkGetPhysicalDeviceQueueFamilyProperties 5 true,
           VkCall.vkCreateDevice 5 [⟨1, 2, 3, [1, 1]⟩, ⟨2, 4, 4, [1, 1, 1, 1]⟩]],
          ⟨4, [⟨1, 3⟩]⟩⟩ := by
  decide

/-! ## Theorems: grInitAndEnumerateGpus -/

/-- Reading the first `c` entries of an array filled with the first `c` devices gives these
devices in order. -/
theorem range_map_getD_take (l : List Nat) (c : Nat) (hc : c ≤ l.length) :
    (List.range c).map (fun i => (l.take c).getD i 0) = l.take c := by
  apply List.ext_getElem
  · simp [hc]
  · intro i h1 h2
    simp at h1 h2
    simp [List.getD, h1, h2.2]

/-- C7: when vkCreateInstance succeeds and the instance exposes n physical devices,
grInitAndEnumerateGpus returns GR_SUCCESS, stores min(n, GR_MAX_PHYSICAL_GPUS) through
pGpuCount and stores exactly that many handles in gpus, the first devices in enumeration
order; when n exceeds GR_MAX_PHYSICAL_GPUS the count is GR_MAX_PHYSICAL_GPUS. -/
theorem grInitAndEnumerateGpus_truncates (H : MantleHeader) (env : InitEnv) (g : Globals)
    (app : GR_APPLICATION_INFO) (cb : Option GR_ALLOC_CALLBACKS)
    (hcreate : env.createInstance.result = VK_SUCCESS) :
    (grInitAndEnumerateGpus H env g app cb).result = GR_SUCCESS ∧
    (grInitAndEnumerateGpus H env g app cb).gpuCount =
      some (min env.physicalDevices.length H.GR_MAX_PHYSICAL_GPUS) ∧
    (grInitAndEnumerateGpus H env g app cb).gpus =
      env.physicalDevices.take (min env.physicalDevices.length H.GR_MAX_PHYSICAL_GPUS) ∧
    (grInitAndEnumerateGpus H env g app cb).gpus.length =
      min env.physicalDevices.length H.GR_MAX_PHYSICAL_GPUS ∧
    (H.GR_MAX_PHYSICAL_GPUS < env.physicalDevices.length →
      (grInitAndEnumerateGpus H env g app cb).gpuCount = some H.GR_MAX_PHYSICAL_GPUS) := by
  have hcap : (if env.physicalDevices.length > H.GR_MAX_PHYSICAL_GPUS
      then H.GR_MAX_PHYSICAL_GPUS else env.physicalDevices.length)
      = min env.physicalDevices.length H.GR_MAX_PHYSICAL_GPUS := by
    split <;> omega
  have hle : min env.physicalDevices.length H.GR_MAX_PHYSICAL_GPUS
      ≤ env.physicalDevices.length := Nat.min_le_left _ _
  have hgpus := range_map_getD_take env.physicalDevices _ hle
  have hfill : vkEnumeratePhysicalDevices env.physicalDevices
      (min env.physicalDevices.length H.GR_MAX_PHYSICAL_GPUS) true
      = (min env.physicalDevices.length H.GR_MAX_PHYSICAL_GPUS,
          env.physicalDevices.take (min env.physicalDevices.length H.GR_MAX_PHYSICAL_GPUS)) := by
    simp [vkEnumeratePhysicalDevices]
  have hquery : (vkEnumeratePhysicalDevices env.physicalDevices 0 false).1
      = env.physicalDevices.length := by
    simp [vkEnumeratePhysicalDevices]
  simp only [grInitAndEnumerateGpus, hcreate, hquery, hcap, hfill, hgpus]
  refine ⟨by simp, by simp, by simp, by simp, ?_⟩
  intro hlt
  simp [Nat.min_eq_right (Nat.le_of_lt hlt)]

/-- Witness of C7: six devices against a maximum of four. -/
theorem grInitAndEnumerateGpus_truncates_witness :
    (⟨⟨0, some 9⟩, [11, 12, 13, 14, 15, 16]⟩ : InitEnv).createInstance.result = VK_SUCCESS ∧
    (grInitAndEnumerateGpus mantle10 ⟨⟨0, some 9⟩, [11, 12, 13, 14, 15, 16]⟩ Globals.start
        ⟨"app", 1, "engine", 1, 1⟩ none).result = GR_SUCCESS ∧
    (grInitAndEnumerateGpus mantle10 ⟨⟨0, some 9⟩, [11, 12, 13, 14, 15, 16]⟩ Globals.start
        ⟨"app", 1, "engine", 1, 1⟩ none).gpuCount = some 4 ∧
    (grInitAndEnumerateGpus mantle10 ⟨⟨0, some 9⟩, [11, 12, 13, 14, 15, 16]⟩ Globals.start
        ⟨"app", 1, "engine", 1, 1⟩ none).gpus = [11, 12, 13, 14] :=
  have h := grInitAndEnumerateGpus_truncates mantle10 ⟨⟨0, some 9⟩, [11, 12, 13, 14, 15, 16]⟩
    Globals.start ⟨"app", 1, "engine", 1, 1⟩ none rfl
  ⟨rfl, h.1, h.2.1, h.2.2.1⟩

/-- The destroy calls of one grInitAndEnumerateGpus call: one, on the held instance, when
mVkInstance is not NULL on entry, and none otherwise. -/
theorem grInitAndEnumerateGpus_destroyed (H : MantleHeader) (env : InitEnv) (g : Globals)
    (app : GR_APPLICATION_INFO) (cb : Option GR_ALLOC_CALLBACKS) :
    destroyedInstances (grInitAndEnumerateGpus H env g app cb).calls
      = if g.mVkInstance ≠ 0 then [g.mVkInstance] else [] := by
  cases cb <;> by_cases hg : g.mVkInstance = 0 <;>
    by_cases hr : env.createInstance.result = VK_SUCCESS <;>
    simp [grInitAndEnumerateGpus, destroyedInstances, hg, hr]

/-- The calls of one grInitAndEnumerateGpus call are its destroy calls, then
vkCreateInstance, then the rest. -/
theorem grInitAndEnumerateGpus_destroy_then_create (H : MantleHeader) (env : InitEnv)
    (g : Globals) (app : GR_APPLICATION_INFO) (cb : Option GR_ALLOC_CALLBACKS) :
    ∃ rest, (grInitAndEnumerateGpus H env g app cb).calls
      = (destroyedInstances (grInitAndEnumerateGpus H env g app cb).calls).map
          VkCall.vkDestroyInstance ++
        VkCall.vkCreateInstance app.pAppName app.appVersion app.pEngineName app.engineVersion
          VK_API_VERSION_1_1 :: rest := by
  rw [grInitAndEnumerateGpus_destroyed]
  cases cb <;> by_cases hg : g.mVkInstance = 0 <;>
    by_cases hr : env.createInstance.result = VK_SUCCESS <;>
    simp [grInitAndEnumerateGpus, hg, hr]

/-- The instance held after one grInitAndEnumerateGpus call: the handle vkCreateInstance
stored, or the one held before when it stored none. -/
theorem grInitAndEnumerateGpus_held (H : MantleHeader) (env : InitEnv) (g : Globals)
    (app : GR_APPLICATION_INFO) (cb : Option GR_ALLOC_CALLBACKS) :
    (grInitAndEnumerateGpus H env g app cb).globals.mVkInstance
      = env.createInstance.pInstance.getD g.mVkInstance := by
  cases cb <;> cases hp : env.createInstance.pInstance <;>
    by_cases hr : env.createInstance.result = VK_SUCCESS <;>
    simp [grInitAndEnumerateGpus, hp, hr]

/-- Every outcome of a sequence is the outcome of one grInitAndEnumerateGpus call. -/
theorem initSequence_mem (H : MantleHeader)
    (inputs : List (InitEnv × GR_APPLICATION_INFO × Option GR_ALLOC_CALLBACKS)) :
    ∀ (g : Globals) (out : InitOut), out ∈ initSequence H g inputs →
      ∃ env g0 app cb, out = grInitAndEnumerateGpus H env g0 app cb := by
  induction inputs with
  | nil => intro g out h; simp [initSequence] at h
  | cons x rest ih =>
    intro g out h
    obtain ⟨env, app, cb⟩ := x
    simp only [initSequence, List.mem_cons] at h
    rcases h with h | h
    · exact ⟨env, g, app, cb, h⟩
    · exact ih _ out h

/-- In a sequence whose instance creations all store a non-null handle, call number k
destroys the instance held on entry: the one held before the sequence for the first call, the
one the previous call created for every later call. -/
theorem initSequence_destroyed (H : MantleHeader)
    (inputs : List (InitEnv × GR_APPLICATION_INFO × Option GR_ALLOC_CALLBACKS))
    (hstored : ∀ x ∈ inputs, ∃ h, h ≠ 0 ∧ x.1.createInstance.pInstance = some h) :
    ∀ g : Globals,
      (initSequence H g inputs).map (fun o => destroyedInstances o.calls)
        = ((g.mVkInstance :: inputs.map createdInstance).take inputs.length).map
            (fun h => if h ≠ 0 then [h] else []) := by
  induction inputs with
  | nil => intro g; simp [initSequence]
  | cons x rest ih =>
    intro g
    obtain ⟨env, app, cb⟩ := x
    obtain ⟨h, _, hp⟩ := hstored (env, app, cb) (List.mem_cons_self _ _)
    have hheld := grInitAndEnumerateGpus_held H env g app cb
    simp only at hp
    rw [hp] at hheld
    simp only [initSequence, List.map_cons, List.length_cons, List.take_succ_cons]
    rw [ih (fun y hy => hstored y (List.mem_cons_of_mem _ hy)), hheld,
      grInitAndEnumerateGpus_destroyed]
    simp [createdInstance, hp]

/-- The destroyed instances of a whole sequence are those of its calls, in order. -/
theorem destroyedInstances_sequenceCalls (outs : List InitOut) :
    destroyedInstances (sequenceCalls outs)
      = (outs.map (fun o => destroyedInstances o.calls)).foldr (fun l acc => l ++ acc) [] := by
  induction outs with
  | nil => simp [sequenceCalls, destroyedInstances]
  | cons o rest ih =>
    simp only [sequenceCalls, List.map_cons, List.foldr_cons, ← ih]
    simp [destroyedInstances, List.filterMap_append]

/-- Concatenating singletons gives the list back. -/
theorem foldr_append_singletons (l : List VkInstance) :
    (l.map (fun h => [h])).foldr (fun l acc => l ++ acc) [] = l := by
  induction l with
  | nil => rfl
  | cons a rest ih => simp [ih]

/-- C8, as stated, fails: when the first instance creation fails (whether vkCreateInstance
leaves the handle untouched or stores NULL), the second call of the sequence issues no
vkDestroyInstance call at all. -/
theorem second_init_without_destroy :
    (initSequence mantle10 Globals.start
        [(⟨⟨-3, none⟩, [11]⟩, ⟨"app", 1, "engine", 1, 1⟩, none),
         (⟨⟨0, some 9⟩, [11]⟩, ⟨"app", 1, "engine", 1, 1⟩, none)]).map
      (fun o => (o.result, destroyedInstances o.calls))
      = [(GR_ERROR_INITIALIZATION_FAILED, []), (GR_SUCCESS, [])] ∧
    (initSequence mantle10 Globals.start
        [(⟨⟨-3, some 0⟩, [11]⟩, ⟨"app", 1, "engine", 1, 1⟩, none),
         (⟨⟨0, some 9⟩, [11]⟩, ⟨"app", 1, "engine", 1, 1⟩, none)]).map
      (fun o => (o.result, destroyedInstances o.calls))
      = [(GR_ERROR_INITIALIZATION_FAILED, []), (GR_SUCCESS, [])] := by
  decide

/-- After a failed creation that leaves mVkInstance untouched, the handle destroyed by that
call is still held, and the next call destroys it a second time. -/
theorem stale_instance_destroyed_again :
    (initSequence mantle10 Globals.start
        [(⟨⟨0, some 9⟩, [21]⟩, ⟨"app", 1, "engine", 1, 1⟩, none),
         (⟨⟨-3, none⟩, [21]⟩, ⟨"app", 1, "engine", 1, 1⟩, none),
         (⟨⟨0, some 10⟩, [21]⟩, ⟨"app", 1, "engine", 1, 1⟩, none)]).map
      (fun o => destroyedInstances o.calls) = [[], [9], [9]] := by
  decide

/-- C8 (amended): in every non-empty sequence of grInitAndEnumerateGpus calls, started with
no instance held, in which every vkCreateInstance succeeds and stores a non-null handle
different from those of the other calls: the first call issues no vkDestroyInstance call and
every later call issues exactly one, on the instance created by the previous call; in every
call the destroy calls come before vkCreateInstance; over the whole sequence the destroyed
instances are the created ones except the latest, each destroyed once. -/
theorem initSequence_destroys_previous (H : MantleHeader)
    (inputs : List (InitEnv × GR_APPLICATION_INFO × Option GR_ALLOC_CALLBACKS))
    (hne : inputs ≠ [])
    (hsucc : ∀ x ∈ inputs, x.1.createInstance.result = VK_SUCCESS ∧
      ∃ h, h ≠ 0 ∧ x.1.createInstance.pInstance = some h)
    (hfresh : (inputs.map createdInstance).Nodup) :
    (initSequence H Globals.start inputs).map (fun o => destroyedInstances o.calls)
      = [] :: (inputs.map createdInstance).dropLast.map (fun h => [h]) ∧
    (∀ out ∈ initSequence H Globals.start inputs, ∃ n v e ev api rest,
      out.calls = (destroyedInstances out.calls).map VkCall.vkDestroyInstance ++
        VkCall.vkCreateInstance n v e ev api :: rest) ∧
    destroyedInstances (sequenceCalls (initSequence H Globals.start inputs))
      = (inputs.map createdInstance).dropLast ∧
    (destroyedInstances (sequenceCalls (initSequence H Globals.start inputs))).Nodup := by
  have hstored : ∀ x ∈ inputs, ∃ h, h ≠ 0 ∧ x.1.createInstance.pInstance = some h :=
    fun x hx => (hsucc x hx).2
  have hnz : ∀ h ∈ inputs.map createdInstance, h ≠ 0 := by
    intro h hh
    obtain ⟨x, hx, rfl⟩ := List.mem_map.1 hh
    obtain ⟨k, hk, hp⟩ := hstored x hx
    simp [createdInstance, hp, hk]
  have hmap : (initSequence H Globals.start inputs).map (fun o => destroyedInstances o.calls)
      = [] :: (inputs.map createdInstance).dropLast.map (fun h => [h]) := by
    rw [initSequence_destroyed H inputs hstored]
    cases inputs with
    | nil => exact absurd rfl hne
    | cons x rest =>
      have htake : List.take rest.length (List.map createdInstance (x :: rest))
          = (List.map createdInstance (x :: rest)).dropLast := by
        rw [List.dropLast_eq_take]; simp
      rw [List.length_cons, List.take_succ_cons, htake, List.map_cons]
      simp only [Globals.start, ne_eq, not_true_eq_false, if_false]
      congr 1
      apply List.map_congr_left
      intro h hh
      have := hnz h (List.dropLast_subset _ hh)
      simp [this]
  have hall : destroyedInstances (sequenceCalls (initSequence H Globals.start inputs))
      = (inputs.map createdInstance).dropLast := by
    rw [destroyedInstances_sequenceCalls, hmap, List.foldr_cons, List.nil_append]
    exact foldr_append_singletons _
  refine ⟨hmap, ?_, hall, ?_⟩
  · intro out hout
    obtain ⟨env, g0, app, cb, rfl⟩ := initSequence_mem H inputs _ out hout
    obtain ⟨rest, hrest⟩ := grInitAndEnumerateGpus_destroy_then_create H env g0 app cb
    exact ⟨_, _, _, _, _, rest, hrest⟩
  · rw [hall]
    exact hfresh.sublist (List.dropLast_sublist _)

/-- Witness of C8 (amended): three successful calls creating the instances 9, 10 and 11. -/
theorem initSequence_destroys_previous_witness :
    (initSequence mantle10 Globals.start
        [(⟨⟨0, some 9⟩, [21]⟩, ⟨"app", 1, "engine", 1, 1⟩, none),
         (⟨⟨0, some 10⟩, [21]⟩, ⟨"app", 1, "engine", 1, 1⟩, none),
         (⟨⟨0, some 11⟩, [21]⟩, ⟨"app", 1, "engine", 1, 1⟩, none)]).map
      (fun o => destroyedInstances o.calls) = [[], [9], [10]] ∧
    destroyedInstances (sequenceCalls (initSequence mantle10 Globals.start
        [(⟨⟨0, some 9⟩, [21]⟩, ⟨"app", 1, "engine", 1, 1⟩, none),
         (⟨⟨0, some 10⟩, [21]⟩, ⟨"app", 1, "engine", 1, 1⟩, none),
         (⟨⟨0, some 11⟩, [21]⟩, ⟨"app", 1, "engine", 1, 1⟩, none)])) = [9, 10] :=
  have h := initSequence_destroys_previous mantle10
    [(⟨⟨0, some 9⟩, [21]⟩, ⟨"app", 1, "engine", 1, 1⟩, none),
     (⟨⟨0, some 10⟩, [21]⟩, ⟨"app", 1, "engine", 1, 1⟩, none),
     (⟨⟨0, some 11⟩, [21]⟩, ⟨"app", 1, "engine", 1, 1⟩, none)]
    (by decide)
    (by
      intro x hx
      simp only [List.mem_cons, List.mem_singleton, List.not_mem_nil, or_false] at hx
      rcases hx with rfl | rfl | rfl
      · exact ⟨rfl, 9, by decide, rfl⟩
      · exact ⟨rfl, 10, by decide, rfl⟩
      · exact ⟨rfl, 11, by decide, rfl⟩)
    (by decide)
  ⟨h.1, h.2.2.1⟩

/-! ## Theorems: queue retrieval and transient buffers -/

/-- The family index computed for a universal queue is 0 whatever the header values and
whatever the scan of grCreateDevice recorded. -/
theorem getVkQueueFamilyIndex_universal (H : MantleHeader) :
    getVkQueueFamilyIndex H H.GR_QUEUE_UNIVERSAL = 0 := by
  simp [getVkQueueFamilyIndex]

/-- C6 fails on the code: for the family list (compute-only, combined) the scan of
grCreateDevice records universal index 1 and compute index 0 and the device is created with
family 1 for the universal request, but grGetDeviceQueue and grCreateCommandBuffer on that
device pass family 0 for the universal type and family 1 for the compute type, the
difference of the enum values. -/
theorem queue_family_index_by_subtraction :
    (scanQueueFamilies [⟨2, 1⟩, ⟨3, 1⟩]).universalQueueIndex = 1 ∧
    (scanQueueFamilies [⟨2, 1⟩, ⟨3, 1⟩]).computeQueueIndex = 0 ∧
    grCreateDevice mantle10 ⟨[⟨2, 1⟩, ⟨3, 1⟩], ⟨0, some 7⟩, []⟩ ⟨0, []⟩ 5
        [⟨mantle10.GR_QUEUE_UNIVERSAL, 1⟩]
      = some ⟨GR_SUCCESS, some 7,
          [VkCall.vkGetPhysicalDeviceQueueFamilyProperties 5 false,
           VkCall.vkGetPhysicalDeviceQueueFamilyProperties 5 true,
           VkCall.vkCreateDevice 5 [⟨1, 1, 3, [1]⟩]], ⟨3, [⟨1, 2⟩]⟩⟩ ∧
    grGetDeviceQueue mantle10 31 7 mantle10.GR_QUEUE_UNIVERSAL 0
      = ⟨GR_SUCCESS, some 31, [VkCall.vkGetDeviceQueue 7 0 0]⟩ ∧
    grCreateCommandBuffer mantle10 ⟨0, some 41, 0, some 43⟩ 7 mantle10.GR_QUEUE_UNIVERSAL
      = ⟨GR_SUCCESS, some 43,
          [VkCall.vkCreateCommandPool 7 0, VkCall.vkAllocateCommandBuffers 7 41 1]⟩ ∧
    grGetDeviceQueue mantle10 31 7 mantle10.GR_QUEUE_COMPUTE 0
      = ⟨GR_SUCCESS, some 31, [VkCall.vkGetDeviceQueue 7 1 0]⟩ := by
  decide

/-- Freeing the priority arrays of a list of create-infos, none of them NULL, removes the
blocks at their addresses and no other. -/
theorem free_priorities_live (infos : List VkDeviceQueueCreateInfo)
    (hnz : ∀ ci ∈ infos, ci.pQueuePriorities ≠ 0) :
    ∀ heap : Heap,
      (infos.foldl (fun h ci => free h ci.pQueuePriorities) heap).live
        = heap.live.filter
            (fun b => decide (b.addr ∉ infos.map (fun ci => ci.pQueuePriorities))) := by
  induction infos with
  | nil => intro heap; simp
  | cons ci rest ih =>
    intro heap
    rw [List.foldl_cons, ih (fun c hc => hnz c (List.mem_cons_of_mem _ hc))]
    simp only [free, hnz ci (List.mem_cons_self _ _), if_false, List.filter_filter,
      List.map_cons, List.mem_cons, not_or]
    apply List.filter_congr
    intro b _
    by_cases h1 : b.addr = ci.pQueuePriorities <;>
      by_cases h2 : b.addr ∈ rest.map (fun ci => ci.pQueuePriorities) <;> simp [h1, h2]

/-- With no failing allocation the request loop appends one create-info per request and one
live block per create-info, at the address held in the create-info, which lies above every
address handed out before the loop. -/
theorem requestLoop_heap (H : MantleHeader) (scan : QueueScan) (qci : Nat)
    (reqs : List GR_DEVICE_QUEUE_CREATE_INFO) :
    ∀ st st1 : RequestLoop, requestLoop H scan [] qci st reqs = some st1 →
      ∃ added : List VkDeviceQueueCreateInfo,
        st1.infos = st.infos ++ added ∧
        st1.heap.live
          = st.heap.live ++ added.map (fun ci => ⟨ci.pQueuePriorities, ci.queueCount⟩) ∧
        ∀ ci ∈ added, st.heap.next < ci.pQueuePriorities := by
  induction reqs with
  | nil => intro st st1 h; simp [requestLoop] at h; exact ⟨[], by simp [h]⟩
  | cons r rest ih =>
    intro st st1 h
    simp only [requestLoop] at h
    cases hstep : requestStep H scan [] qci st r with
    | none => simp [hstep] at h
    | some st2 =>
      simp only [hstep] at h
      have h2 := (requestStep_eq_some H scan [] qci st st2 r hstep).2.2
      simp only [malloc, List.not_mem_nil, decide_False, Bool.false_eq_true, if_false] at h2
      obtain ⟨added, hinfos, hlive, hge⟩ := ih st2 st1 h
      refine ⟨⟨if r.queueType = H.GR_QUEUE_UNIVERSAL then scan.universalQueueIndex
          else scan.computeQueueIndex, r.queueCount, st.heap.next + 1,
          List.replicate r.queueCount 1⟩ :: added, ?_, ?_, ?_⟩
      · rw [hinfos, h2]; simp
      · rw [hlive, h2]; simp
      · intro ci hci
        rcases List.mem_cons.1 hci with hh | hh
        · subst hh; simp
        · have := hge ci hh
          rw [h2] at this
          simp at this
          omega

/-- The live blocks after the code at `bail`, for non-null arrays: those at the address of a
priority array or of the create-info array are gone, the others stay. -/
theorem bail_live (heap : Heap) (queueCreateInfos : Nat) (infos : List VkDeviceQueueCreateInfo)
    (hq : queueCreateInfos ≠ 0) (hnz : ∀ ci ∈ infos, ci.pQueuePriorities ≠ 0) :
    (bail heap queueCreateInfos infos).live
      = (heap.live.filter
          (fun b => decide (b.addr ∉ infos.map (fun ci => ci.pQueuePriorities)))).filter
          (fun b => decide (b.addr ≠ queueCreateInfos)) := by
  unfold bail
  rw [show ∀ (h : Heap),
      (free h queueCreateInfos).live
        = h.live.filter (fun b => decide (b.addr ≠ queueCreateInfos)) from
      fun h => by simp [free, hq],
    free_priorities_live infos hnz]

/-- On every exit path of a defined grCreateDevice call without failing allocation the
priority arrays and the create-info array are freed and the queue-family array allocated at
line 111 is not: started on a fresh heap, the live blocks afterwards are those before plus
that array. -/
theorem grCreateDevice_heap (H : MantleHeader) (fams : List VkQueueFamilyProperties)
    (reply : VkCreateDeviceReply) (heap : Heap) (gpu : GR_PHYSICAL_GPU)
    (reqs : List GR_DEVICE_QUEUE_CREATE_INFO)
    (hfams : fams.length ≤ INT32_MAX) (hreqs : reqs.length ≤ INT32_MAX)
    (hcounts : ∀ r ∈ reqs, r.queueCount ≤ INT32_MAX) (hfresh : heap.fresh) :
    ∃ out, grCreateDevice H ⟨fams, reply, []⟩ heap gpu reqs = some out ∧
      out.heap.live = heap.live ++ [⟨heap.next + 1, fams.length⟩] := by
  obtain ⟨st, hst, hout⟩ :=
    grCreateDevice_defined H fams reply heap gpu reqs hfams hreqs hcounts
  obtain ⟨added, hinfos, hlive, hge⟩ := requestLoop_heap H _ _ reqs _ st hst
  simp only [List.nil_append] at hinfos hlive hge
  have hnz : ∀ ci ∈ st.infos, ci.pQueuePriorities ≠ 0 := by
    intro ci hci
    rw [hinfos] at hci
    have := hge ci hci
    omega
  have hbail := bail_live st.heap (heap.next + 1 + 1) st.infos (by omega) hnz
  have hnot : ∀ a, a ≤ heap.next + 1 + 1 → a ∉ added.map (fun ci => ci.pQueuePriorities) := by
    intro a ha hmem
    obtain ⟨ci, hci, rfl⟩ := List.mem_map.1 hmem
    have := hge ci hci
    omega
  have hlive1 : (bail st.heap (heap.next + 1 + 1) st.infos).live
      = heap.live ++ [⟨heap.next + 1, fams.length⟩] := by
    rw [hbail, hlive, hinfos]
    simp only [List.filter_append]
    have h1 : List.filter (fun b => decide (b.addr ≠ heap.next + 1 + 1))
        (List.filter (fun b => decide (b.addr ∉ added.map (fun ci => ci.pQueuePriorities)))
          heap.live) = heap.live := by
      rw [List.filter_filter, List.filter_eq_self]
      intro b hb
      have hlt := (hfresh b hb).2
      have hn := hnot b.addr (by omega)
      have hne : b.addr ≠ heap.next + 1 + 1 := by omega
      simp [hn, hne]
    have h2 : List.filter (fun b => decide (b.addr ≠ heap.next + 1 + 1))
        (List.filter (fun b => decide (b.addr ∉ added.map (fun ci => ci.pQueuePriorities)))
          [(⟨heap.next + 1, fams.length⟩ : Block)])
        = [⟨heap.next + 1, fams.length⟩] := by
      rw [List.filter_filter, List.filter_eq_self]
      intro b hb
      rw [List.mem_singleton] at hb
      subst hb
      have hn := hnot (heap.next + 1) (by omega)
      simp [hn]
    have h3 : List.filter (fun b => decide (b.addr ≠ heap.next + 1 + 1))
        (List.filter (fun b => decide (b.addr ∉ added.map (fun ci => ci.pQueuePriorities)))
          [(⟨heap.next + 1 + 1, reqs.length⟩ : Block)]) = [] := by
      rw [List.filter_filter, List.filter_eq_nil_iff]
      intro b hb
      rw [List.mem_singleton] at hb
      subst hb
      simp
    have h4 : List.filter
        (fun b => decide (b.addr ∉ added.map (fun ci => ci.pQueuePriorities)))
        (added.map (fun ci => (⟨ci.pQueuePriorities, ci.queueCount⟩ : Block))) = [] := by
      rw [List.filter_eq_nil_iff]
      intro b hb
      obtain ⟨ci, hci, rfl⟩ := List.mem_map.1 hb
      simp only [decide_eq_true_eq, not_not]
      exact List.mem_map.2 ⟨ci, hci, rfl⟩
    rw [h1, h2, h3, h4]
    simp
  refine ⟨_, hout, ?_⟩
  split
  · exact hlive1
  · split <;> exact hlive1

/-- C9 fails on the code: started on the empty heap with one combined family and no failing
allocation, grCreateDevice leaves the queue-family array of line 111 (the first block, one
element) allocated on each of its three exit paths: success, count validation failure and
vkCreateDevice failure. -/
theorem grCreateDevice_leaks_family_array :
    (grCreateDevice mantle10 ⟨[⟨3, 1⟩], ⟨0, some 7⟩, []⟩ ⟨0, []⟩ 5
        [⟨mantle10.GR_QUEUE_UNIVERSAL, 1⟩]).map (fun out => (out.result, out.heap.live))
      = some (GR_SUCCESS, [⟨1, 1⟩]) ∧
    (grCreateDevice mantle10 ⟨[⟨3, 1⟩], ⟨0, some 7⟩, []⟩ ⟨0, []⟩ 5
        [⟨mantle10.GR_QUEUE_UNIVERSAL, 2⟩]).map (fun out => (out.result, out.heap.live))
      = some (GR_ERROR_INVALID_VALUE, [⟨1, 1⟩]) ∧
    (grCreateDevice mantle10 ⟨[⟨3, 1⟩], ⟨-3, none⟩, []⟩ ⟨0, []⟩ 5
        [⟨mantle10.GR_QUEUE_UNIVERSAL, 1⟩]).map (fun out => (out.result, out.heap.live))
      = some (GR_ERROR_INITIALIZATION_FAILED, [⟨1, 1⟩]) := by
  decide

end Grvk
